import Mathlib

/-!
Verification of the FitraRH/defect-backend decision pipeline.

Shallow embedding of the Python sources:
- numbers that Python stores as floats are modelled as rationals;
- Python dicts with possibly-absent keys are modelled as structures with
  `Option` fields (`none` = key absent);
- code that may raise is modelled with `Except Unit` results (`.error` =
  an exception was raised and caught by the enclosing handler);
- the two inference services (`DetectionCore.detect_anomaly`,
  `DetectionCore.classify_defects` in core/detection.py) and the
  visualization/report writers are external effects, modelled as oracle
  fields of a `DetectionCore` record supplied to the pipeline.
-/

namespace DefectBackend

/-- Per-pixel map (the anomaly mask handed from the anomaly stage to the
classification stage); its contents are opaque to the pipeline logic. -/
abbrev Mask := List (List Nat)

/-- The dict returned by `DetectionCore.detect_anomaly`, as consumed by
`image_processor.py` (keys `anomaly_score`, `decision`, `threshold_used`,
`anomaly_mask`). -/
structure AnomalyResult where
  anomaly_score : ℚ
  decision : String
  threshold_used : ℚ
  anomaly_mask : Option Mask
deriving DecidableEq

/-- One bounding-box dict (api_server.py lines 270-279 reads keys
`x`, `y`, `width`, `height`, `center_x`, `center_y`, `area`). -/
structure BBox where
  x : ℤ
  y : ℤ
  width : ℤ
  height : ℤ
  center_x : ℤ
  center_y : ℤ
  area : ℤ
deriving DecidableEq

/-- The dict returned by `DetectionCore.classify_defects`, as consumed by
`image_processor.py` and `api_server.py` (keys `detected_defects` and
`bounding_boxes : dict defect_type -> list of bbox dicts`, the latter kept
as an association list preserving dict insertion order). -/
structure DefectResult where
  detected_defects : List String
  bounding_boxes : List (String × List BBox)
deriving DecidableEq

/-- The result dict built by `ImageProcessor.process_single_image`
(processors/image_processor.py lines 50-83).  `detected_defect_types` is
`Option` because the key is only assigned on lines 66 and 69: when the
anomaly decision is DEFECT and `classify_defects` returns a falsy result,
the key is absent from the returned dict. -/
structure DetectionResult where
  image_path : String
  timestamp : String
  anomaly_detection : AnomalyResult
  defect_classification : Option DefectResult
  processing_time : ℚ
  final_decision : String
  detected_defect_types : Option (List String)
  visualization_path : String
  report_path : String
deriving DecidableEq

/-- Oracle record for the external effects invoked by
`process_single_image`: the two inference calls of `DetectionCore`
(core/detection.py) and the visualization/report writers
(utils/visualization.py, utils/reports.py).  `.error ()` models a raised
exception (caught by the `except` on line 85 of image_processor.py);
`.ok none` models a falsy (`None`) return value. -/
structure DetectionCore where
  detect_anomaly : String → Except Unit (Option AnomalyResult)
  classify_defects : String → Option Mask → Except Unit (Option DefectResult)
  create_visualization : Except Unit String
  save_analysis_report : Except Unit String

/-- Final assembly of the result dict in `process_single_image`: sets
`processing_time` (line 72), then `visualization_path` (lines 75-76) and
`report_path` (lines 79-80); an exception in either writer is caught by
the enclosing handler, so no result is returned. -/
def assemble_result (core : DetectionCore) (image_path timestamp : String)
    (a : AnomalyResult) (dc : Option DefectResult)
    (ddt : Option (List String)) (elapsed : ℚ) : Option DetectionResult :=
  match core.create_visualization, core.save_analysis_report with
  | .ok vp, .ok rp =>
      some { image_path := image_path
             timestamp := timestamp
             anomaly_detection := a
             defect_classification := dc
             processing_time := elapsed
             final_decision := a.decision
             detected_defect_types := ddt
             visualization_path := vp
             report_path := rp }
  | _, _ => none

/-- `ImageProcessor.process_single_image` (image_processor.py lines 24-87).
Returns the optional result (`none` = the Python function returned `None`)
paired with the number of times `classify_defects` (the segmentation
stage) was invoked during the run.  Control flow mirrors the source:
falsy anomaly result aborts (line 47-48); the classification stage runs
only when `anomaly_result['decision'] == 'DEFECT'` (line 60); a falsy
classification result leaves `defect_classification` as `None` and never
assigns `detected_defect_types` (lines 64-66); the GOOD branch assigns
`detected_defect_types = []` (line 69); any exception yields `None`
(lines 85-87). -/
def process_single_image (core : DetectionCore) (image_path timestamp : String)
    (elapsed : ℚ) : Option DetectionResult × ℕ :=
  match core.detect_anomaly image_path with
  | .error _ => (none, 0)
  | .ok none => (none, 0)
  | .ok (some a) =>
      if a.decision = "DEFECT" then
        match core.classify_defects image_path a.anomaly_mask with
        | .error _ => (none, 1)
        | .ok none =>
            (assemble_result core image_path timestamp a none none elapsed, 1)
        | .ok (some d) =>
            (assemble_result core image_path timestamp a (some d)
              (some d.detected_defects) elapsed, 1)
      else
        (assemble_result core image_path timestamp a none (some []) elapsed, 0)

/-! ### Batch processing over a folder
(`ImageProcessor.process_batch_images`, image_processor.py lines 89-150).
The per-image work (file discovery, `process_single_image`) is abstracted
into a list of per-image outcomes (`none` = the image failed processing);
the embedding models the summary-building loop of lines 108-138. -/

/-- The `summary` dict of `process_batch_images` (lines 109-116, 137-138).
`defect_types_found` is a Python `set`, modelled as a `Finset` (line 137
converts it to a list in unspecified order).  `avg_processing_time` is
derived at the end, see `avg_processing_time`. -/
structure BatchSummary where
  total_images : ℕ
  good_products : ℕ
  defective_products : ℕ
  defect_types_found : Finset String
  processing_times : List ℚ
  failed_processing : ℕ
deriving DecidableEq

/-- One iteration of the loop on lines 118-134: a successful result is
appended to `results` and its `processing_time` to the timing list; a
GOOD decision increments `good_products`, anything else increments
`defective_products` and unions `detected_defect_types` into the found
set when that key is present; a failed image increments
`failed_processing`. -/
def batch_step (acc : List DetectionResult × BatchSummary)
    (o : Option DetectionResult) : List DetectionResult × BatchSummary :=
  match o with
  | some r =>
      let s := acc.2
      let s := { s with processing_times := s.processing_times ++ [r.processing_time] }
      let s :=
        if r.final_decision = "GOOD" then
          { s with good_products := s.good_products + 1 }
        else
          { s with defective_products := s.defective_products + 1
                   defect_types_found :=
                     match r.detected_defect_types with
                     | some tl => s.defect_types_found ∪ tl.toFinset
                     | none => s.defect_types_found }
      (acc.1 ++ [r], s)
  | none =>
      (acc.1, { acc.2 with failed_processing := acc.2.failed_processing + 1 })

/-- `ImageProcessor.process_batch_images` (lines 89-150), over the list of
per-image outcomes: `total_images` is initialised to the number of input
images (line 110), the loop folds each outcome, and the function returns
the pair corresponding to `{'results': results, 'summary': summary}`. -/
def process_batch_images (outcomes : List (Option DetectionResult)) :
    List DetectionResult × BatchSummary :=
  outcomes.foldl batch_step
    ([], { total_images := outcomes.length
           good_products := 0
           defective_products := 0
           defect_types_found := ∅
           processing_times := []
           failed_processing := 0 })

/-- `summary['avg_processing_time']` (line 138): `np.mean` of the timing
list when nonempty, else `0`. -/
def avg_processing_time (s : BatchSummary) : ℚ :=
  if s.processing_times = [] then 0
  else s.processing_times.sum / s.processing_times.length

/-- The repository's defect-rate formula (api_server.py line 188) applied
to a batch summary: `defective_products / total_images * 100` when
`total_images > 0`, else `0`. -/
def defect_rate_of (defective_products total_images : ℕ) : ℚ :=
  if 0 < total_images then
    (defective_products : ℚ) / (total_images : ℚ) * 100
  else 0

/-! ### The Flutter response formatter
(`FlutterAPIServer._format_flutter_response`, api_server.py lines 232-288).
Its input is an arbitrary — possibly malformed — result dict, so the input
model makes every key optional; a `none` on a key accessed with `[...]`
models the `KeyError` that the `except` on line 283 catches. -/

/-- Possibly-malformed `anomaly_detection` sub-dict. -/
structure RawAnomaly where
  anomaly_score : Option ℚ
  decision : Option String
  threshold_used : Option ℚ
deriving DecidableEq

/-- Possibly-malformed bounding-box dict. -/
structure RawBBox where
  x : Option ℤ
  y : Option ℤ
  width : Option ℤ
  height : Option ℤ
  center_x : Option ℤ
  center_y : Option ℤ
  area : Option ℤ
deriving DecidableEq

/-- Possibly-malformed `defect_classification` sub-dict. -/
structure RawDefect where
  detected_defects : Option (List String)
  bounding_boxes : Option (List (String × List RawBBox))
deriving DecidableEq

/-- Possibly-malformed internal result dict fed to the formatter. -/
structure RawResult where
  final_decision : Option String
  processing_time : Option ℚ
  timestamp : Option String
  anomaly_detection : Option RawAnomaly
  detected_defect_types : Option (List String)
  defect_classification : Option RawDefect
deriving DecidableEq

/-- Rounding of a rational to the nearest integer with ties to the even
integer — the behaviour of Python's builtin `round`. -/
def roundHalfEven (q : ℚ) : ℤ :=
  if q - ⌊q⌋ = 1 / 2 then (if Even ⌊q⌋ then ⌊q⌋ else ⌊q⌋ + 1)
  else round q

/-- Python's `round(q, n)`: round to `n` decimal places. -/
def pyRound (n : ℕ) (q : ℚ) : ℚ :=
  (roundHalfEven (q * 10 ^ n) : ℚ) / 10 ^ n

/-- `anomaly_detection` object of the Flutter response (lines 243-247). -/
structure FlutterAnomaly where
  anomaly_score : ℚ
  decision : String
  threshold_used : ℚ
deriving DecidableEq

/-- `defect_classification` object of the Flutter response (lines 262-265). -/
structure FlutterDefectInfo where
  detected_defects : List String
  total_defect_types : ℕ
deriving DecidableEq

/-- One flattened bounding box of the Flutter response (lines 270-279). -/
structure FlutterBBox where
  defect_type : String
  x : ℤ
  y : ℤ
  width : ℤ
  height : ℤ
  center_x : ℤ
  center_y : ℤ
  area : ℤ
deriving DecidableEq

/-- The success-shaped Flutter response dict (lines 236-256, with
`status = 'success'`). -/
structure FlutterResponse where
  status : String
  final_decision : String
  processing_time : ℚ
  timestamp : String
  anomaly_detection : FlutterAnomaly
  defect_classification : Option FlutterDefectInfo
  detected_defects : List String
  defect_count : ℕ
  bounding_boxes : List FlutterBBox
deriving DecidableEq

/-- A formatter outcome: either the success dict or the error dict built
by the handler on lines 284-288 (`status='error'`, `final_decision='ERROR'`). -/
inductive FormatOutput where
  | success (r : FlutterResponse)
  | error (msg : String)
deriving DecidableEq

/-- The `status` entry of a formatter outcome (`'success'` on line 237,
`'error'` on line 285). -/
def FormatOutput.statusOf : FormatOutput → String
  | .success r => r.status
  | .error _ => "error"

/-- Flattening of one per-type bbox list (the inner loop of lines
269-279); `none` models the `KeyError` raised when a bbox dict lacks one
of the seven accessed keys. -/
def flatten_raw_boxes (defect_type : String) : List RawBBox →
    Option (List FlutterBBox)
  | [] => some []
  | b :: rest =>
    match b.x, b.y, b.width, b.height, b.center_x, b.center_y, b.area,
        flatten_raw_boxes defect_type rest with
    | some bx, some by_, some bw, some bh, some bcx, some bcy, some ba,
      some fs =>
        some ({ defect_type := defect_type, x := bx, y := by_, width := bw,
                height := bh, center_x := bcx, center_y := bcy,
                area := ba } :: fs)
    | _, _, _, _, _, _, _, _ => none

/-- Flattening of the whole `bounding_boxes` mapping (the outer loop of
line 268), in dict insertion order. -/
def flatten_raw_mapping : List (String × List RawBBox) →
    Option (List FlutterBBox)
  | [] => some []
  | p :: rest =>
    match flatten_raw_boxes p.1 p.2, flatten_raw_mapping rest with
    | some l, some ls => some (l ++ ls)
    | _, _ => none

/-- The `try` body of `_format_flutter_response` (lines 234-281): a
`none` models a `KeyError` on a mandatory `[...]` access;
`.get(key, default)` accesses use `Option.getD`. -/
def format_core (result : RawResult) : Option FlutterResponse :=
  match result.final_decision, result.processing_time, result.timestamp,
      result.anomaly_detection with
  | some fd, some pt, some ts, some an =>
    match an.anomaly_score, an.decision, an.threshold_used with
    | some score, some dec, some thr =>
      let dd := result.detected_defect_types.getD []
      let base : FlutterResponse :=
        { status := "success"
          final_decision := fd
          processing_time := pyRound 2 pt
          timestamp := ts
          anomaly_detection :=
            { anomaly_score := pyRound 4 score, decision := dec,
              threshold_used := thr }
          defect_classification := none
          detected_defects := dd
          defect_count := dd.length
          bounding_boxes := [] }
      match result.defect_classification with
      | none => some base
      | some d =>
        match d.detected_defects with
        | none => none
        | some dds =>
          match flatten_raw_mapping (d.bounding_boxes.getD []) with
          | none => none
          | some flat =>
              some { base with
                      defect_classification := some
                        { detected_defects := dds,
                          total_defect_types := dds.length }
                      bounding_boxes := flat }
    | _, _, _ => none
  | _, _, _, _ => none

/-- `FlutterAPIServer._format_flutter_response` (lines 232-288): the `try`
body, with every exception downgraded to the error dict of lines 284-288. -/
def format_flutter_response (result : RawResult) : FormatOutput :=
  match format_core result with
  | some r => .success r
  | none => .error "KeyError"

/-! ### External schema
The wire format produced by `jsonify`: a small JSON value type, the
encoding of the formatter output into it, and a client-side re-parse of
the fields the round-trip property talks about. -/

/-- JSON values as serialized by `jsonify`. -/
inductive Json where
  | null
  | bool (b : Bool)
  | num (q : ℚ)
  | str (s : String)
  | arr (l : List Json)
  | obj (l : List (String × Json))

/-- First value bound to a key in a JSON object (Python dicts have unique
keys, so this is the dict lookup). -/
def Json.getField (j : Json) (k : String) : Option Json :=
  match j with
  | .obj l => (l.find? fun p => p.1 == k).map Prod.snd
  | _ => none

/-- Whether a JSON object carries a given key. -/
def Json.hasKey (j : Json) (k : String) : Bool :=
  match j with
  | .obj l => l.any fun p => p.1 == k
  | _ => false

/-- String content of a JSON value, when it is a string. -/
def Json.asStr : Json → Option String
  | .str s => some s
  | _ => none

/-- Numeric content of a JSON value, when it is a number. -/
def Json.asNum : Json → Option ℚ
  | .num q => some q
  | _ => none

/-- Integer content of a JSON value, when it is an integral number. -/
def Json.asInt : Json → Option ℤ
  | .num q => if q.den = 1 then some q.num else none
  | _ => none

/-- Serialization of one flattened bounding box (api_server.py lines
270-279), keys in source order. -/
def encodeBBox (b : FlutterBBox) : Json :=
  .obj [("defect_type", .str b.defect_type),
        ("x", .num (b.x : ℚ)),
        ("y", .num (b.y : ℚ)),
        ("width", .num (b.width : ℚ)),
        ("height", .num (b.height : ℚ)),
        ("center_x", .num (b.center_x : ℚ)),
        ("center_y", .num (b.center_y : ℚ)),
        ("area", .num (b.area : ℚ))]

/-- Serialization of the success-shaped Flutter response (the dict of
api_server.py lines 236-256 after the mutations of lines 258-279), keys
in source order. -/
def encodeResponse (r : FlutterResponse) : Json :=
  .obj [("status", .str r.status),
        ("final_decision", .str r.final_decision),
        ("processing_time", .num r.processing_time),
        ("timestamp", .str r.timestamp),
        ("anomaly_detection", .obj
          [("anomaly_score", .num r.anomaly_detection.anomaly_score),
           ("decision", .str r.anomaly_detection.decision),
           ("threshold_used", .num r.anomaly_detection.threshold_used)]),
        ("defect_classification",
          match r.defect_classification with
          | none => .null
          | some d => .obj
              [("detected_defects", .arr (d.detected_defects.map Json.str)),
               ("total_defect_types", .num (d.total_defect_types : ℚ))]),
        ("detected_defects", .arr (r.detected_defects.map Json.str)),
        ("defect_count", .num (r.defect_count : ℚ)),
        ("bounding_boxes", .arr (r.bounding_boxes.map encodeBBox))]

/-- Serialization of a formatter outcome; the error dict is the one of
api_server.py lines 284-288. -/
def encodeOutput : FormatOutput → Json
  | .success r => encodeResponse r
  | .error msg =>
      .obj [("status", .str "error"), ("error", .str msg),
            ("final_decision", .str "ERROR")]

/-- A client-side re-parse of one serialized bounding box. -/
def decodeBBox (j : Json) : Option FlutterBBox :=
  match (j.getField "defect_type").bind Json.asStr,
      (j.getField "x").bind Json.asInt,
      (j.getField "y").bind Json.asInt,
      (j.getField "width").bind Json.asInt,
      (j.getField "height").bind Json.asInt,
      (j.getField "center_x").bind Json.asInt,
      (j.getField "center_y").bind Json.asInt,
      (j.getField "area").bind Json.asInt with
  | some dt, some bx, some by_, some bw, some bh, some bcx, some bcy,
    some ba =>
      some { defect_type := dt, x := bx, y := by_, width := bw, height := bh,
             center_x := bcx, center_y := bcy, area := ba }
  | _, _, _, _, _, _, _, _ => none

/-- A client-side re-parse of a serialized bounding-box list. -/
def decode_boxes : List Json → Option (List FlutterBBox)
  | [] => some []
  | j :: rest =>
    match decodeBBox j, decode_boxes rest with
    | some b, some bs => some (b :: bs)
    | _, _ => none

/-- The fields of the external schema that the round-trip property
preserves. -/
structure ParsedExternal where
  final_decision : String
  anomaly_score : ℚ
  bounding_boxes : List FlutterBBox
deriving DecidableEq

/-- A client-side re-parse of the serialized response, recovering
`final_decision`, the anomaly score, and every bounding box. -/
def parse_external (j : Json) : Option ParsedExternal :=
  match (j.getField "final_decision").bind Json.asStr,
      (j.getField "anomaly_detection").bind
        (fun an => (an.getField "anomaly_score").bind Json.asNum),
      j.getField "bounding_boxes" with
  | some fd, some score, some (.arr l) =>
    match decode_boxes l with
    | some bbs =>
        some { final_decision := fd, anomaly_score := score,
               bounding_boxes := bbs }
    | none => none
  | _, _, _ => none

/-! ### API routes (api_server.py lines 51-230)
Each Flask handler is embedded as a function from its request data (and an
oracle for the detector call inside the `try` block) to the JSON reply and
HTTP status code.  An exception raised anywhere in a handler's `try` block
is modelled by the `.error` case of the oracle. -/

/-- `health_check` (lines 54-61). -/
def health_check (detector_present ready : Bool) (timestamp : String) : Json :=
  .obj [("status", .str "ok"),
        ("detector_ready", .bool (detector_present && ready)),
        ("timestamp", .str timestamp)]

/-- The image-bearing part of a `/api/detect-image` request: whether
`'image' in request.files`, and the `image_base64` entry of the JSON body
when present. -/
structure DetectRequest where
  has_file : Bool
  json_image_base64 : Option String
deriving DecidableEq

/-- `detect_image` (lines 78-127): reply JSON and HTTP status.  `outcome`
is the detector call `self.detector.process_image(temp_path)` together
with any exception raised inside the `try` block (`.error e` ↦ the
handler of lines 122-127). -/
def detect_image (ready : Bool) (req : DetectRequest)
    (outcome : Except String (Option RawResult)) : Json × ℕ :=
  if !ready then
    (.obj [("error", .str "Detection system not ready")], 500)
  else if !req.has_file && req.json_image_base64 == none then
    (.obj [("error", .str "No image provided")], 400)
  else
    match outcome with
    | .error e => (.obj [("error", .str e)], 500)
    | .ok none => (.obj [("error", .str "Processing failed")], 500)
    | .ok (some result) => (encodeOutput (format_flutter_response result), 200)

/-- `final_decision` entry of a formatted response, as read by the batch
summary loop on line 179 (`'ERROR'` in the error-shaped dict). -/
def finalDecisionOf : FormatOutput → String
  | .success r => r.final_decision
  | .error _ => "ERROR"

/-- The per-image loop of `batch_detect` (lines 143-175): each image's
outcome is the detector call with any exception in its `try` (`.error`
continues with the next image, line 169-175); a falsy result is also
skipped (line 164).  Successful results are formatted and tagged with
their `image_index`. -/
def flutter_batch_results (outcomes : List (Except String (Option RawResult))) :
    List (FormatOutput × ℕ) :=
  outcomes.enum.filterMap fun p =>
    match p.2 with
    | .ok (some r) => some (format_flutter_response r, p.1)
    | _ => none

/-- The summary dict of `batch_detect` (lines 177-189). -/
structure FlutterBatchSummary where
  total_images : ℕ
  good_products : ℕ
  defective_products : ℕ
  defect_rate : ℚ
deriving DecidableEq

/-- `batch_detect`'s summary computation (lines 177-189): `total_images`
is `len(results)`, `good_products` counts formatted entries with
`final_decision == 'GOOD'`, `defective_products` is the difference, and
`defect_rate` is `defective / total * 100` guarded by `total > 0`. -/
def flutter_batch_summary (outcomes : List (Except String (Option RawResult))) :
    FlutterBatchSummary :=
  let results := flutter_batch_results outcomes
  let total := results.length
  let good := results.countP fun p => finalDecisionOf p.1 == "GOOD"
  { total_images := total
    good_products := good
    defective_products := total - good
    defect_rate :=
      if 0 < total then ((total - good : ℕ) : ℚ) / (total : ℚ) * 100 else 0 }

/-- One entry of the batch reply's `results` list: the formatted response
with `image_index` added (line 166). -/
def encodeBatchEntry (p : FormatOutput × ℕ) : Json :=
  match encodeOutput p.1 with
  | .obj l => .obj (l ++ [("image_index", .num (p.2 : ℚ))])
  | j => j

/-- `batch_detect` (lines 129-194): reply JSON and HTTP status.
`has_images_key` is `request.json and 'images' in request.json`
(line 136). -/
def batch_detect (ready : Bool) (has_images_key : Bool)
    (outcomes : List (Except String (Option RawResult))) : Json × ℕ :=
  if !ready then
    (.obj [("error", .str "Detection system not ready")], 500)
  else if !has_images_key then
    (.obj [("error", .str "No images provided")], 400)
  else if outcomes.isEmpty then
    (.obj [("error", .str "No images provided")], 400)
  else
    let s := flutter_batch_summary outcomes
    (.obj [("status", .str "success"),
           ("summary", .obj
             [("total_images", .num (s.total_images : ℚ)),
              ("good_products", .num (s.good_products : ℚ)),
              ("defective_products", .num (s.defective_products : ℚ)),
              ("defect_rate", .num s.defect_rate)]),
           ("results", .arr ((flutter_batch_results outcomes).map encodeBatchEntry))],
     200)

/-! ### Threshold state (config.py lines 18-20, main.py lines 206-222)
Python module semantics: `config.py` binds `ANOMALY_THRESHOLD = 0.7` and
`DEFECT_CONFIDENCE_THRESHOLD = 0.85`; every module of the repository that
uses them (`main.py`, `processors/image_processor.py`,
`models/model_loader.py`, and the detection core) executes
`from config import *`, which copies the bindings into that module's own
namespace at import time.  `UnifiedDefectDetector.update_thresholds`
declares `global ANOMALY_THRESHOLD, DEFECT_CONFIDENCE_THRESHOLD` inside
`main.py`, so its assignments rebind `main`'s module globals only.  The
state below tracks the bindings of the three namespaces the claims touch. -/

/-- The per-module threshold bindings after import: the `config` module's
own globals, `main`'s copies, and the detection-core module's copies. -/
structure ThresholdBindings where
  config_ANOMALY_THRESHOLD : ℚ
  config_DEFECT_CONFIDENCE_THRESHOLD : ℚ
  main_ANOMALY_THRESHOLD : ℚ
  main_DEFECT_CONFIDENCE_THRESHOLD : ℚ
  detection_ANOMALY_THRESHOLD : ℚ
  detection_DEFECT_CONFIDENCE_THRESHOLD : ℚ
deriving DecidableEq

/-- The bindings at process start: config.py lines 19-20 set 0.7 and
0.85, and every importing module copies those values. -/
def initial_bindings : ThresholdBindings :=
  { config_ANOMALY_THRESHOLD := 7 / 10
    config_DEFECT_CONFIDENCE_THRESHOLD := 85 / 100
    main_ANOMALY_THRESHOLD := 7 / 10
    main_DEFECT_CONFIDENCE_THRESHOLD := 85 / 100
    detection_ANOMALY_THRESHOLD := 7 / 10
    detection_DEFECT_CONFIDENCE_THRESHOLD := 85 / 100 }

/-- `UnifiedDefectDetector.update_thresholds` (main.py lines 206-222):
each argument updates its value only when it `is not None`, and — because
of the `global` declaration in `main.py` — the assignment rebinds
`main`'s module globals, leaving the `config` module and every other
importer's copies untouched. -/
def update_thresholds (anomaly_threshold defect_threshold : Option ℚ)
    (s : ThresholdBindings) : ThresholdBindings :=
  { s with
    main_ANOMALY_THRESHOLD := anomaly_threshold.getD s.main_ANOMALY_THRESHOLD
    main_DEFECT_CONFIDENCE_THRESHOLD :=
      defect_threshold.getD s.main_DEFECT_CONFIDENCE_THRESHOLD }

/-- Modelled from the spec: `DetectionCore.detect_anomaly` lives in
core/detection.py, which is not under src/ (only its import in
core/__init__.py is).  Spec §4.2 gives its decision rule — `decision =
DEFECT if score >= anomaly_threshold else GOOD` — computed from the
threshold binding visible to the detection-core module (which, like every
module of this repository, obtains it from `config`, not from `main`). -/
def detect_anomaly_decision (s : ThresholdBindings) (score : ℚ) : String :=
  if s.detection_ANOMALY_THRESHOLD ≤ score then "DEFECT" else "GOOD"

/-- `get_system_info` thresholds (main.py lines 195-204): reads `main`'s
own module globals. -/
def system_info_thresholds (s : ThresholdBindings) : ℚ × ℚ :=
  (s.main_ANOMALY_THRESHOLD, s.main_DEFECT_CONFIDENCE_THRESHOLD)

/-- `update_thresholds` route (api_server.py lines 196-218): reply JSON,
HTTP status and the detector state after the call.  `body` carries the
`anomaly_threshold`/`defect_threshold` entries fetched with `.get`
(line 207-208); `none` is a request without JSON body (line 203). -/
def update_thresholds_route (detector_present : Bool)
    (body : Option (Option ℚ × Option ℚ)) (s : ThresholdBindings) :
    (Json × ℕ) × ThresholdBindings :=
  if !detector_present then
    ((.obj [("error", .str "Detector not initialized")], 500), s)
  else
    match body with
    | none => ((.obj [("error", .str "No data provided")], 400), s)
    | some (oa, od) =>
        ((.obj [("status", .str "success"),
                ("message", .str "Thresholds updated successfully")], 200),
         update_thresholds oa od s)

/-! ### Concrete instances used by witnesses and counterexamples -/

/-- Anomaly outcome below threshold: gate decision GOOD. -/
def aGoodEx : AnomalyResult :=
  { anomaly_score := 1 / 10, decision := "GOOD", threshold_used := 7 / 10,
    anomaly_mask := none }

/-- Anomaly outcome above threshold: gate decision DEFECT. -/
def aDefectEx : AnomalyResult :=
  { anomaly_score := 95 / 100, decision := "DEFECT", threshold_used := 7 / 10,
    anomaly_mask := some [[1]] }

/-- Oracle: gate says GOOD, classification (never reached) returns nothing,
both writers succeed. -/
def coreGoodEx : DetectionCore :=
  { detect_anomaly := fun _ => .ok (some aGoodEx)
    classify_defects := fun _ _ => .ok none
    create_visualization := .ok "viz.png"
    save_analysis_report := .ok "report.json" }

/-- Oracle: gate says DEFECT but `classify_defects` returns a falsy
result (`None`). -/
def coreDefectNoClassEx : DetectionCore :=
  { detect_anomaly := fun _ => .ok (some aDefectEx)
    classify_defects := fun _ _ => .ok none
    create_visualization := .ok "viz.png"
    save_analysis_report := .ok "report.json" }

/-- Oracle: the anomaly stage itself returns a falsy result. -/
def coreAnomalyFailEx : DetectionCore :=
  { detect_anomaly := fun _ => .ok none
    classify_defects := fun _ _ => .ok none
    create_visualization := .ok "viz.png"
    save_analysis_report := .ok "report.json" }

/-- The result `process_single_image` builds under `coreGoodEx`. -/
def rGoodEx : DetectionResult :=
  { image_path := "img", timestamp := "t", anomaly_detection := aGoodEx,
    defect_classification := none, processing_time := 1,
    final_decision := "GOOD", detected_defect_types := some [],
    visualization_path := "viz.png", report_path := "report.json" }

/-- The result `process_single_image` builds under `coreDefectNoClassEx`:
decision DEFECT, no classification, and the `detected_defect_types` key
was never assigned. -/
def rPartialEx : DetectionResult :=
  { image_path := "img", timestamp := "t", anomaly_detection := aDefectEx,
    defect_classification := none, processing_time := 1,
    final_decision := "DEFECT", detected_defect_types := none,
    visualization_path := "viz.png", report_path := "report.json" }

/-! ### Claim theorems -/

/-- What any successful assembly says about the returned result's
fields. -/
lemma assemble_result_fields (core : DetectionCore) (ip ts : String)
    (a : AnomalyResult) (dc : Option DefectResult) (ddt : Option (List String))
    (el : ℚ) (r : DetectionResult)
    (h : assemble_result core ip ts a dc ddt el = some r) :
    r.final_decision = a.decision ∧ r.defect_classification = dc ∧
      r.detected_defect_types = ddt := by
  unfold assemble_result at h
  cases hv : core.create_visualization <;>
    cases hs : core.save_analysis_report <;>
      rw [hv, hs] at h <;>
        simp only [Option.some.injEq, reduceCtorEq] at h
  subst h
  exact ⟨rfl, rfl, rfl⟩

/-- C1: when the anomaly-stage decision is GOOD, any result the pipeline
returns has `final_decision = GOOD`, no defect classification and an
empty `detected_defect_types` list, and the defect-classification
(segmentation) step is never invoked for that image. -/
theorem goodGateSkipsClassification (core : DetectionCore)
    (image_path timestamp : String) (elapsed : ℚ) (a : AnomalyResult)
    (r : DetectionResult)
    (ha : core.detect_anomaly image_path = .ok (some a))
    (hg : a.decision = "GOOD")
    (hr : (process_single_image core image_path timestamp elapsed).1 = some r) :
    r.final_decision = "GOOD" ∧ r.defect_classification = none ∧
      r.detected_defect_types = some [] ∧
      (process_single_image core image_path timestamp elapsed).2 = 0 := by
  have hne : ¬ a.decision = "DEFECT" := by rw [hg]; decide
  simp only [process_single_image, ha, if_neg hne] at hr ⊢
  obtain ⟨h1, h2, h3⟩ :=
    assemble_result_fields core image_path timestamp a none (some []) elapsed r hr
  exact ⟨by rw [h1, hg], h2, h3, by trivial⟩

/-- Witness for C1 at the concrete oracle `coreGoodEx`. -/
theorem goodGateSkipsClassification_witness :
    rGoodEx.final_decision = "GOOD" ∧ rGoodEx.defect_classification = none ∧
      rGoodEx.detected_defect_types = some [] ∧
      (process_single_image coreGoodEx "img" "t" 1).2 = 0 :=
  goodGateSkipsClassification coreGoodEx "img" "t" 1 aGoodEx rGoodEx rfl rfl rfl

/-- C4 counterexample: with the gate saying DEFECT and the classification
stage returning a falsy result, `process_single_image` returns the
partial result `rPartialEx`: `final_decision = DEFECT` with no
classification and no `detected_defect_types` key — the shape the claim
says is never returned. -/
theorem defectWithoutClassificationCounterexample :
    (process_single_image coreDefectNoClassEx "img" "t" 1).1 = some rPartialEx ∧
      rPartialEx.final_decision = "DEFECT" ∧
      rPartialEx.defect_classification = none ∧
      rPartialEx.detected_defect_types = none := by
  exact ⟨rfl, rfl, rfl, rfl⟩

/-- C4 (amended): an exception anywhere, a falsy anomaly result, or an
exception in the classification stage aborts the run with no result; but
when the classification stage returns a falsy result on a DEFECT-gated
image, the pipeline returns a result with `final_decision = DEFECT`, no
classification and no `detected_defect_types` key. -/
theorem pipelineFailureHandlingAmended (core : DetectionCore)
    (image_path timestamp : String) (elapsed : ℚ) :
    (core.detect_anomaly image_path = .error () →
      process_single_image core image_path timestamp elapsed = (none, 0)) ∧
    (core.detect_anomaly image_path = .ok none →
      process_single_image core image_path timestamp elapsed = (none, 0)) ∧
    (∀ a, core.detect_anomaly image_path = .ok (some a) →
      a.decision = "DEFECT" →
      core.classify_defects image_path a.anomaly_mask = .error () →
      process_single_image core image_path timestamp elapsed = (none, 1)) ∧
    (∀ a r, core.detect_anomaly image_path = .ok (some a) →
      a.decision = "DEFECT" →
      core.classify_defects image_path a.anomaly_mask = .ok none →
      (process_single_image core image_path timestamp elapsed).1 = some r →
      r.final_decision = "DEFECT" ∧ r.defect_classification = none ∧
        r.detected_defect_types = none) := by
  refine ⟨?_, ?_, ?_, ?_⟩
  · intro h; simp [process_single_image, h]
  · intro h; simp [process_single_image, h]
  · intro a ha hd hc; simp [process_single_image, ha, hd, hc]
  · intro a r ha hd hc hr
    simp only [process_single_image, ha, hd, if_pos rfl, hc] at hr
    obtain ⟨h1, h2, h3⟩ :=
      assemble_result_fields core image_path timestamp a none none elapsed r hr
    exact ⟨by rw [h1, hd], h2, h3⟩

/-- Witness for C4 (amended) at concrete oracles: the falsy anomaly stage
aborts, and the falsy classification stage yields the partial DEFECT
result. -/
theorem pipelineFailureHandlingAmended_witness :
    process_single_image coreAnomalyFailEx "img" "t" 1 = (none, 0) ∧
      (rPartialEx.final_decision = "DEFECT" ∧
        rPartialEx.defect_classification = none ∧
        rPartialEx.detected_defect_types = none) :=
  ⟨(pipelineFailureHandlingAmended coreAnomalyFailEx "img" "t" 1).2.1 rfl,
   (pipelineFailureHandlingAmended coreDefectNoClassEx "img" "t" 1).2.2.2
     aDefectEx rPartialEx rfl rfl rfl rfl⟩

/-- C2: evaluation at the failing input.  `update_thresholds (some 0.5)
none` leaves the omitted defect threshold unchanged and records 0.5 — but
only in `main`'s module globals: the `config` module and the
detection-core module still hold 0.7, so a subsequent anomaly decision on
a score of 0.6 still returns GOOD although the spec expects DEFECT under
the updated threshold (0.5 ≤ 0.6). -/
theorem thresholdUpdateStaysInMainModule :
    (∀ oa od s, ((update_thresholds oa od s).config_ANOMALY_THRESHOLD =
        s.config_ANOMALY_THRESHOLD ∧
      (update_thresholds oa od s).config_DEFECT_CONFIDENCE_THRESHOLD =
        s.config_DEFECT_CONFIDENCE_THRESHOLD ∧
      (update_thresholds oa od s).detection_ANOMALY_THRESHOLD =
        s.detection_ANOMALY_THRESHOLD ∧
      (update_thresholds oa od s).detection_DEFECT_CONFIDENCE_THRESHOLD =
        s.detection_DEFECT_CONFIDENCE_THRESHOLD)) ∧
    (update_thresholds (some (1 / 2)) none initial_bindings).main_ANOMALY_THRESHOLD
        = 1 / 2 ∧
    (update_thresholds (some (1 / 2)) none
        initial_bindings).main_DEFECT_CONFIDENCE_THRESHOLD = 85 / 100 ∧
    (update_thresholds (some (1 / 2)) none
        initial_bindings).detection_ANOMALY_THRESHOLD = 7 / 10 ∧
    detect_anomaly_decision
        (update_thresholds (some (1 / 2)) none initial_bindings) (6 / 10)
        = "GOOD" ∧
    (1 / 2 : ℚ) ≤ 6 / 10 := by
  refine ⟨fun oa od s => ⟨rfl, rfl, rfl, rfl⟩, rfl, rfl, rfl,
    ?_, by norm_num⟩
  unfold detect_anomaly_decision
  rw [if_neg (by norm_num [update_thresholds, initial_bindings])]

/-- Structural facts about every successful formatter projection: the
`status` entry is `'success'`, and both `detected_defects` and
`defect_count` are derived from the result's `detected_defect_types`
(defaulting to the empty list). -/
lemma format_core_fields (result : RawResult) (r : FlutterResponse)
    (h : format_core result = some r) :
    r.status = "success" ∧
      r.detected_defects = result.detected_defect_types.getD [] ∧
      r.defect_count = (result.detected_defect_types.getD []).length := by
  obtain ⟨fd, pt, ts, an, ddt, dc⟩ := result
  unfold format_core at h
  dsimp only at h
  cases fd <;> cases pt <;> cases ts <;> cases an <;> try cases h
  rename_i a
  obtain ⟨sc, de, th⟩ := a
  dsimp only at h
  cases sc <;> cases de <;> cases th <;> try cases h
  cases dc with
  | none =>
      simp only [Option.some.injEq] at h
      subst h
      exact ⟨rfl, rfl, rfl⟩
  | some d =>
      obtain ⟨dds, bbs⟩ := d
      dsimp only at h
      cases dds with
      | none => cases h
      | some dds =>
          cases hf : flatten_raw_mapping (bbs.getD []) with
          | none => rw [hf] at h; cases h
          | some flat =>
              rw [hf] at h
              simp only [Option.some.injEq] at h
              subst h
              exact ⟨rfl, rfl, rfl⟩

/-- From a success-shaped formatter outcome back to the projection. -/
lemma format_flutter_response_success (result : RawResult) (r : FlutterResponse)
    (h : format_flutter_response result = .success r) :
    format_core result = some r := by
  unfold format_flutter_response at h
  cases hh : format_core result <;> rw [hh] at h <;>
    simp only [FormatOutput.success.injEq, reduceCtorEq] at h
  rw [h]

/-- Every formatter outcome carries status `'success'` or `'error'`. -/
lemma statusOf_success_or_error (result : RawResult) :
    (format_flutter_response result).statusOf = "success" ∨
      (format_flutter_response result).statusOf = "error" := by
  cases h : format_core result with
  | none =>
      right
      simp [format_flutter_response, h, FormatOutput.statusOf]
  | some r =>
      left
      have hs := (format_core_fields result r h).1
      simp [format_flutter_response, h, FormatOutput.statusOf, hs]

/-- C6: the formatter is total — every outcome is a formatted object whose
status is `'success'` or `'error'` — and any projection failure yields the
error object rather than propagating. -/
theorem formatterNeverPropagates (result : RawResult) :
    ((format_flutter_response result).statusOf = "success" ∨
      (format_flutter_response result).statusOf = "error") ∧
    (format_core result = none →
      format_flutter_response result = .error "KeyError") := by
  refine ⟨statusOf_success_or_error result, fun h => ?_⟩
  simp [format_flutter_response, h]

/-- A malformed internal result: every key absent. -/
def rawMalformedEx : RawResult :=
  { final_decision := none, processing_time := none, timestamp := none,
    anomaly_detection := none, detected_defect_types := none,
    defect_classification := none }

/-- Witness for C6 at the malformed result with every key absent. -/
theorem formatterNeverPropagates_witness :
    ((format_flutter_response rawMalformedEx).statusOf = "success" ∨
      (format_flutter_response rawMalformedEx).statusOf = "error") ∧
      format_flutter_response rawMalformedEx = .error "KeyError" :=
  ⟨(formatterNeverPropagates rawMalformedEx).1,
   (formatterNeverPropagates rawMalformedEx).2 rfl⟩

/-- C10: in every success-shaped formatter response, `defect_count` is the
length of the `detected_defects` list of that same response. -/
theorem defectCountMatchesDetectedDefects (result : RawResult)
    (r : FlutterResponse)
    (h : format_flutter_response result = .success r) :
    r.defect_count = r.detected_defects.length := by
  obtain ⟨-, h2, h3⟩ :=
    format_core_fields result r (format_flutter_response_success result r h)
  rw [h2, h3]

/-- A well-formed GOOD result dict, as `process_single_image` would hand
to the formatter. -/
def rawGoodEx : RawResult :=
  { final_decision := some "GOOD", processing_time := some 1,
    timestamp := some "t",
    anomaly_detection := some
      { anomaly_score := some (1 / 10), decision := some "GOOD",
        threshold_used := some (7 / 10) },
    detected_defect_types := some [], defect_classification := none }

/-- The formatter's projection of `rawGoodEx`. -/
def frGoodEx : FlutterResponse :=
  { status := "success", final_decision := "GOOD",
    processing_time := pyRound 2 1, timestamp := "t",
    anomaly_detection :=
      { anomaly_score := pyRound 4 (1 / 10), decision := "GOOD",
        threshold_used := 7 / 10 },
    defect_classification := none, detected_defects := [], defect_count := 0,
    bounding_boxes := [] }

/-- Witness for C10 at the concrete GOOD result. -/
theorem defectCountMatchesDetectedDefects_witness :
    frGoodEx.defect_count = frGoodEx.detected_defects.length :=
  defectCountMatchesDetectedDefects rawGoodEx frGoodEx rfl

/-- C9: the batch summary's `defect_rate` is
`defective_products / total_images * 100`, and `0` when `total_images`
is `0` (the computation is total: no division-by-zero error). -/
theorem batchDefectRateFormula
    (outcomes : List (Except String (Option RawResult))) :
    (flutter_batch_summary outcomes).defect_rate =
      (if (flutter_batch_summary outcomes).total_images = 0 then 0
       else ((flutter_batch_summary outcomes).defective_products : ℚ) /
         ((flutter_batch_summary outcomes).total_images : ℚ) * 100) := by
  unfold flutter_batch_summary
  dsimp only
  rcases Nat.eq_zero_or_pos (flutter_batch_results outcomes).length with h | h
  · rw [if_neg (by omega), if_pos h]
  · rw [if_pos h, if_neg (by omega)]

/-- The claimed reply discipline: an explicit `status` entry whose value
is `'success'` or `'error'`. -/
def statusSuccessOrError (j : Json) : Prop :=
  j.getField "status" = some (.str "success") ∨
    j.getField "status" = some (.str "error")

/-- The discipline the error branches actually follow: an `'error'` entry
and no `status` entry at all. -/
def errorOnlyReply (j : Json) : Prop :=
  j.hasKey "error" = true ∧ j.hasKey "status" = false

/-- The serialized formatter outcome exposes its status entry. -/
lemma encodeOutput_status_field (fo : FormatOutput) :
    (encodeOutput fo).getField "status" = some (.str fo.statusOf) := by
  cases fo <;> rfl

/-- The serialized formatter outcome satisfies the status discipline. -/
lemma encodeOutput_statusSuccessOrError (result : RawResult) :
    statusSuccessOrError (encodeOutput (format_flutter_response result)) := by
  unfold statusSuccessOrError
  rw [encodeOutput_status_field]
  rcases statusOf_success_or_error result with h | h
  · exact Or.inl (by rw [h])
  · exact Or.inr (by rw [h])

/-- C5 counterexample: the `'No image provided'` reply of the detection
endpoint — a business-logic failure — carries no `status` entry at all
(only `'error'`), and the health endpoint's status is `'ok'`, which is
neither `'success'` nor `'error'`. -/
theorem statusFieldCounterexample :
    (detect_image true { has_file := false, json_image_base64 := none }
        (.ok none)).1.hasKey "status" = false ∧
      (detect_image true { has_file := false, json_image_base64 := none }
        (.ok none)).1.hasKey "error" = true ∧
      (health_check true true "t").getField "status" = some (.str "ok") ∧
      "ok" ≠ "success" ∧ "ok" ≠ "error" := by
  exact ⟨rfl, rfl, rfl, by decide, by decide⟩

/-- C5 (amended): replies produced by the response formatter carry
`status` `'success'` or `'error'`, as do the success replies of the batch
and threshold-update endpoints; every error branch instead returns an
object with an `'error'` entry and no `status` entry; the health endpoint
carries `status = 'ok'`. -/
theorem apiStatusDiscipline (ready hk present dp rdy : Bool)
    (req : DetectRequest) (outcome : Except String (Option RawResult))
    (outs : List (Except String (Option RawResult)))
    (body : Option (Option ℚ × Option ℚ)) (s : ThresholdBindings)
    (ts : String) :
    (statusSuccessOrError (detect_image ready req outcome).1 ∨
      errorOnlyReply (detect_image ready req outcome).1) ∧
    (statusSuccessOrError (batch_detect ready hk outs).1 ∨
      errorOnlyReply (batch_detect ready hk outs).1) ∧
    (statusSuccessOrError (update_thresholds_route present body s).1.1 ∨
      errorOnlyReply (update_thresholds_route present body s).1.1) ∧
    (health_check dp rdy ts).getField "status" = some (.str "ok") := by
  refine ⟨?_, ?_, ?_, rfl⟩
  · unfold detect_image
    cases ready with
    | false => exact Or.inr ⟨rfl, rfl⟩
    | true =>
        cases hcond : (!req.has_file && req.json_image_base64 == none) with
        | true => exact Or.inr ⟨rfl, rfl⟩
        | false =>
            cases outcome with
            | error e => exact Or.inr ⟨rfl, rfl⟩
            | ok o =>
                cases o with
                | none => exact Or.inr ⟨rfl, rfl⟩
                | some result =>
                    exact Or.inl (encodeOutput_statusSuccessOrError result)
  · unfold batch_detect
    cases ready with
    | false => exact Or.inr ⟨rfl, rfl⟩
    | true =>
        cases hk with
        | false => exact Or.inr ⟨rfl, rfl⟩
        | true =>
            cases houts : outs.isEmpty with
            | true => exact Or.inr ⟨rfl, rfl⟩
            | false => exact Or.inl (Or.inl rfl)
  · unfold update_thresholds_route
    cases present with
    | false => exact Or.inr ⟨rfl, rfl⟩
    | true =>
        cases body with
        | none => exact Or.inr ⟨rfl, rfl⟩
        | some p => exact Or.inl (Or.inl rfl)

/-! ### Batch-fold characterization -/

/-- Outcome counted by `good_products` (line 127). -/
def goodOutcome : Option DetectionResult → Bool
  | some r => r.final_decision == "GOOD"
  | none => false

/-- Outcome counted by `defective_products` (line 130). -/
def defectiveOutcome : Option DetectionResult → Bool
  | some r => !(r.final_decision == "GOOD")
  | none => false

/-- Outcome counted by `failed_processing` (line 134). -/
def failedOutcome : Option DetectionResult → Bool
  | some _ => false
  | none => true

/-- The processing time a successful outcome contributes (line 125). -/
def outcomeTime : Option DetectionResult → Option ℚ
  | some r => some r.processing_time
  | none => none

/-- Defect types one outcome contributes to the found set (lines
131-132). -/
def types_of : Option DetectionResult → Finset String
  | some r =>
    if r.final_decision = "GOOD" then ∅
    else
      match r.detected_defect_types with
      | some tl => tl.toFinset
      | none => ∅
  | none => ∅

/-- Defect types a list of outcomes contributes. -/
def types_of_list (l : List (Option DetectionResult)) : Finset String :=
  l.foldr (fun o acc => types_of o ∪ acc) ∅

/-- Effect of one `batch_step` on every component of the accumulator. -/
lemma batch_step_proj (acc : List DetectionResult × BatchSummary)
    (o : Option DetectionResult) :
    (batch_step acc o).1 = acc.1 ++ o.toList ∧
    (batch_step acc o).2.total_images = acc.2.total_images ∧
    (batch_step acc o).2.good_products =
      acc.2.good_products + (if goodOutcome o then 1 else 0) ∧
    (batch_step acc o).2.defective_products =
      acc.2.defective_products + (if defectiveOutcome o then 1 else 0) ∧
    (batch_step acc o).2.failed_processing =
      acc.2.failed_processing + (if failedOutcome o then 1 else 0) ∧
    (batch_step acc o).2.processing_times =
      acc.2.processing_times ++ (outcomeTime o).toList ∧
    (batch_step acc o).2.defect_types_found =
      acc.2.defect_types_found ∪ types_of o := by
  cases o with
  | none =>
      simp [batch_step, goodOutcome, defectiveOutcome, failedOutcome,
        outcomeTime, types_of]
  | some r =>
      by_cases hg : r.final_decision = "GOOD"
      · simp [batch_step, goodOutcome, defectiveOutcome, failedOutcome,
          outcomeTime, types_of, hg]
      · cases hdt : r.detected_defect_types <;>
          simp [batch_step, goodOutcome, defectiveOutcome, failedOutcome,
            outcomeTime, types_of, hg, hdt]

/-- Closed form of the whole batch fold: results are the successful
outcomes in order, `total_images` is untouched, the three counters count
their outcome kinds, timings are the successful times in order, and the
found-type set is the union of every outcome's contribution. -/
lemma batch_fold_spec (l : List (Option DetectionResult))
    (acc : List DetectionResult × BatchSummary) :
    (l.foldl batch_step acc).1 = acc.1 ++ l.reduceOption ∧
    (l.foldl batch_step acc).2.total_images = acc.2.total_images ∧
    (l.foldl batch_step acc).2.good_products =
      acc.2.good_products + l.countP goodOutcome ∧
    (l.foldl batch_step acc).2.defective_products =
      acc.2.defective_products + l.countP defectiveOutcome ∧
    (l.foldl batch_step acc).2.failed_processing =
      acc.2.failed_processing + l.countP failedOutcome ∧
    (l.foldl batch_step acc).2.processing_times =
      acc.2.processing_times ++ l.filterMap outcomeTime ∧
    (l.foldl batch_step acc).2.defect_types_found =
      acc.2.defect_types_found ∪ types_of_list l := by
  induction l generalizing acc with
  | nil => simp [types_of_list]
  | cons o rest ih =>
      obtain ⟨s1, s2, s3, s4, s5, s6, s7⟩ := batch_step_proj acc o
      obtain ⟨ih1, ih2, ih3, ih4, ih5, ih6, ih7⟩ := ih (batch_step acc o)
      rw [List.foldl_cons]
      refine ⟨?_, ?_, ?_, ?_, ?_, ?_, ?_⟩
      · rw [ih1, s1]
        cases o <;> simp [List.reduceOption]
      · rw [ih2, s2]
      · rw [ih3, s3, List.countP_cons]
        cases hgo : goodOutcome o <;> simp [hgo] <;> omega
      · rw [ih4, s4, List.countP_cons]
        cases hdo : defectiveOutcome o <;> simp [hdo] <;> omega
      · rw [ih5, s5, List.countP_cons]
        cases hfo : failedOutcome o <;> simp [hfo] <;> omega
      · rw [ih6, s6, List.filterMap_cons]
        cases hot : outcomeTime o <;> simp [hot]
      · rw [ih7, s7]
        show _ = _ ∪ types_of_list (o :: rest)
        have : types_of_list (o :: rest) = types_of o ∪ types_of_list rest := rfl
        rw [this, Finset.union_assoc]

/-- Successful and failed outcomes partition the batch. -/
lemma reduceOption_length_add (l : List (Option DetectionResult)) :
    l.reduceOption.length + l.countP failedOutcome = l.length := by
  induction l with
  | nil => simp
  | cons o rest ih =>
      cases o <;>
        simp [List.reduceOption, failedOutcome, List.countP_cons, ← ih] <;>
          omega

/-- C3 counterexample: a 2-image API batch in which the second image fails
processing.  The endpoint's summary reports `total_images = 1` — only the
successful results — not the claimed `N = 2` (and its summary carries no
`failed_processing` entry at all). -/
theorem batchTotalsCounterexample :
    (flutter_batch_summary
        [Except.ok (some rawGoodEx), Except.ok none]).total_images = 1 ∧
      ([Except.ok (some rawGoodEx), Except.ok none] :
        List (Except String (Option RawResult))).length = 2 := by
  exact ⟨rfl, rfl⟩

/-- C3 (amended): the folder batch processor (`process_batch_images`)
satisfies the claim — it folds every outcome, `total_images` is the full
input count, `failed_processing` counts the failures, and `results` keeps
exactly the successful entries; the API batch endpoint instead skips
failures, so its summary's `total_images` is just the number of
successful entries. -/
theorem batchFailureIsolation (outcomes : List (Option DetectionResult))
    (fouts : List (Except String (Option RawResult))) :
    (process_batch_images outcomes).2.total_images = outcomes.length ∧
    (process_batch_images outcomes).2.failed_processing =
      outcomes.countP failedOutcome ∧
    (process_batch_images outcomes).1.length =
      outcomes.length - outcomes.countP failedOutcome ∧
    (flutter_batch_summary fouts).total_images =
      (flutter_batch_results fouts).length := by
  obtain ⟨h1, h2, -, -, h5, -, -⟩ :=
    batch_fold_spec outcomes
      ([], { total_images := outcomes.length, good_products := 0,
             defective_products := 0, defect_types_found := ∅,
             processing_times := [], failed_processing := 0 })
  refine ⟨?_, ?_, ?_, rfl⟩
  · exact h2
  · rw [process_batch_images, h5]
    simp
  · have hl := reduceOption_length_add outcomes
    rw [process_batch_images, h1]
    simp only [List.nil_append]
    omega

/-- Membership in the contributed-type set of a list of outcomes. -/
lemma mem_types_of_list (x : String) (l : List (Option DetectionResult)) :
    x ∈ types_of_list l ↔ ∃ o ∈ l, x ∈ types_of o := by
  induction l with
  | nil => simp [types_of_list]
  | cons o rest ih =>
      have hc : types_of_list (o :: rest) = types_of o ∪ types_of_list rest := rfl
      rw [hc, Finset.mem_union, ih]
      simp

/-- The contributed-type set only depends on the multiset of outcomes. -/
lemma types_of_list_perm {l₁ l₂ : List (Option DetectionResult)}
    (h : l₁.Perm l₂) : types_of_list l₁ = types_of_list l₂ := by
  apply Finset.ext
  intro x
  rw [mem_types_of_list, mem_types_of_list]
  constructor
  · rintro ⟨o, ho, hx⟩
    exact ⟨o, h.mem_iff.mp ho, hx⟩
  · rintro ⟨o, ho, hx⟩
    exact ⟨o, h.mem_iff.mpr ho, hx⟩

/-- The mean timing only depends on the multiset of timings. -/
lemma avg_processing_time_perm (s₁ s₂ : BatchSummary)
    (hp : s₁.processing_times.Perm s₂.processing_times) :
    avg_processing_time s₁ = avg_processing_time s₂ := by
  unfold avg_processing_time
  by_cases h1 : s₁.processing_times = []
  · have h2 : s₂.processing_times = [] := by
      rw [← List.length_eq_zero, ← hp.length_eq, List.length_eq_zero]
      exact h1
    rw [if_pos h1, if_pos h2]
  · have h2 : ¬ s₂.processing_times = [] := by
      rw [← List.length_eq_zero, ← hp.length_eq, List.length_eq_zero]
      exact h1
    rw [if_neg h1, if_neg h2, hp.sum_eq, hp.length_eq]

/-- The order-insensitive part of two batch summaries agreeing: all
counters, the found-type set, the derived defect rate, and the mean
timing coincide. -/
def summary_invariants_eq (s₁ s₂ : BatchSummary) : Prop :=
  s₁.good_products = s₂.good_products ∧
  s₁.defective_products = s₂.defective_products ∧
  s₁.defect_types_found = s₂.defect_types_found ∧
  defect_rate_of s₁.defective_products s₁.total_images =
    defect_rate_of s₂.defective_products s₂.total_images ∧
  s₁.total_images = s₂.total_images ∧
  s₁.failed_processing = s₂.failed_processing ∧
  avg_processing_time s₁ = avg_processing_time s₂

/-- C8: folding any permutation of the per-image outcomes yields a batch
summary with identical counters, found-type set, defect rate and mean
timing; only the `processing_times` list reflects fold order — it lists
the successful outcomes' times in exactly fold order, so the two lists
are permutations of each other. -/
theorem batchAggregationOrderIndependent
    (l₁ l₂ : List (Option DetectionResult)) (h : l₁.Perm l₂) :
    summary_invariants_eq (process_batch_images l₁).2
      (process_batch_images l₂).2 ∧
    (process_batch_images l₁).2.processing_times.Perm
      (process_batch_images l₂).2.processing_times ∧
    (process_batch_images l₁).2.processing_times =
      l₁.filterMap outcomeTime := by
  obtain ⟨-, a2, a3, a4, a5, a6, a7⟩ :=
    batch_fold_spec l₁
      ([], { total_images := l₁.length, good_products := 0,
             defective_products := 0, defect_types_found := ∅,
             processing_times := [], failed_processing := 0 })
  obtain ⟨-, b2, b3, b4, b5, b6, b7⟩ :=
    batch_fold_spec l₂
      ([], { total_images := l₂.length, good_products := 0,
             defective_products := 0, defect_types_found := ∅,
             processing_times := [], failed_processing := 0 })
  have htime : (process_batch_images l₁).2.processing_times =
      l₁.filterMap outcomeTime := by
    rw [process_batch_images, a6]; simp
  have htime2 : (process_batch_images l₂).2.processing_times =
      l₂.filterMap outcomeTime := by
    rw [process_batch_images, b6]; simp
  have hdef : (process_batch_images l₁).2.defective_products =
      (process_batch_images l₂).2.defective_products := by
    rw [process_batch_images, process_batch_images, a4, b4,
      h.countP_eq defectiveOutcome]
  have htot : (process_batch_images l₁).2.total_images =
      (process_batch_images l₂).2.total_images := by
    rw [process_batch_images, process_batch_images, a2, b2]
    exact h.length_eq
  have hperm : (process_batch_images l₁).2.processing_times.Perm
      (process_batch_images l₂).2.processing_times := by
    rw [htime, htime2]
    exact h.filterMap outcomeTime
  refine ⟨⟨?_, hdef, ?_, ?_, htot, ?_, ?_⟩, hperm, htime⟩
  · rw [process_batch_images, process_batch_images, a3, b3,
      h.countP_eq goodOutcome]
  · rw [process_batch_images, process_batch_images, a7, b7,
      types_of_list_perm h]
  · rw [hdef, htot]
  · rw [process_batch_images, process_batch_images, a5, b5,
      h.countP_eq failedOutcome]
  · exact avg_processing_time_perm _ _ hperm

/-- Witness for C8: a two-outcome batch (one success, one failure) folded
in both orders. -/
theorem batchAggregationOrderIndependent_witness :
    summary_invariants_eq (process_batch_images [some rGoodEx, none]).2
      (process_batch_images [none, some rGoodEx]).2 ∧
    (process_batch_images [some rGoodEx, none]).2.processing_times.Perm
      (process_batch_images [none, some rGoodEx]).2.processing_times ∧
    (process_batch_images [some rGoodEx, none]).2.processing_times =
      [some rGoodEx, none].filterMap outcomeTime :=
  batchAggregationOrderIndependent [some rGoodEx, none] [none, some rGoodEx]
    (List.Perm.swap none (some rGoodEx) [])

/-! ### Round-trip of the formatter projection (C7) -/

/-- A well-formed bounding box as a raw dict (every key present). -/
def toRawBBox (b : BBox) : RawBBox :=
  { x := some b.x, y := some b.y, width := some b.width,
    height := some b.height, center_x := some b.center_x,
    center_y := some b.center_y, area := some b.area }

/-- A well-formed classification result as a raw dict. -/
def toRawDefect (d : DefectResult) : RawDefect :=
  { detected_defects := some d.detected_defects
    bounding_boxes :=
      some (d.bounding_boxes.map fun p => (p.1, p.2.map toRawBBox)) }

/-- A pipeline result as the raw dict handed to the formatter. -/
def toRaw (r : DetectionResult) : RawResult :=
  { final_decision := some r.final_decision
    processing_time := some r.processing_time
    timestamp := some r.timestamp
    anomaly_detection := some
      { anomaly_score := some r.anomaly_detection.anomaly_score
        decision := some r.anomaly_detection.decision
        threshold_used := some r.anomaly_detection.threshold_used }
    detected_defect_types := r.detected_defect_types
    defect_classification := r.defect_classification.map toRawDefect }

/-- One per-type box list tagged with its defect type. -/
def tagBoxes (t : String) (l : List BBox) : List FlutterBBox :=
  l.map fun b =>
    { defect_type := t, x := b.x, y := b.y, width := b.width,
      height := b.height, center_x := b.center_x, center_y := b.center_y,
      area := b.area }

/-- The per-type mapping flattened into one tagged sequence, in mapping
order. -/
def flatten_tagged : List (String × List BBox) → List FlutterBBox
  | [] => []
  | p :: rest => tagBoxes p.1 p.2 ++ flatten_tagged rest

/-- Flattening a well-formed raw box list never fails and tags every
box. -/
lemma flatten_raw_boxes_toRaw (t : String) (l : List BBox) :
    flatten_raw_boxes t (l.map toRawBBox) = some (tagBoxes t l) := by
  induction l with
  | nil => rfl
  | cons b rest ih =>
      simp [flatten_raw_boxes, toRawBBox, tagBoxes, ih]

/-- Flattening a well-formed raw mapping never fails. -/
lemma flatten_raw_mapping_toRaw (m : List (String × List BBox)) :
    flatten_raw_mapping (m.map fun p => (p.1, p.2.map toRawBBox)) =
      some (flatten_tagged m) := by
  induction m with
  | nil => rfl
  | cons p rest ih =>
      simp [flatten_raw_mapping, flatten_raw_boxes_toRaw, ih, flatten_tagged]

/-- The formatter's projection of a well-formed pipeline result. -/
def expected_response (r : DetectionResult) : FlutterResponse :=
  { status := "success"
    final_decision := r.final_decision
    processing_time := pyRound 2 r.processing_time
    timestamp := r.timestamp
    anomaly_detection :=
      { anomaly_score := pyRound 4 r.anomaly_detection.anomaly_score
        decision := r.anomaly_detection.decision
        threshold_used := r.anomaly_detection.threshold_used }
    defect_classification := r.defect_classification.map fun d =>
      { detected_defects := d.detected_defects
        total_defect_types := d.detected_defects.length }
    detected_defects := r.detected_defect_types.getD []
    defect_count := (r.detected_defect_types.getD []).length
    bounding_boxes :=
      match r.defect_classification with
      | some d => flatten_tagged d.bounding_boxes
      | none => [] }

/-- On well-formed input the formatter always succeeds, with the expected
projection. -/
lemma format_core_toRaw (r : DetectionResult) :
    format_core (toRaw r) = some (expected_response r) := by
  cases hdc : r.defect_classification with
  | none => simp [format_core, toRaw, expected_response, hdc]
  | some d =>
      simp [format_core, toRaw, toRawDefect, expected_response, hdc,
        flatten_raw_mapping_toRaw]

/-- Re-parsing a serialized bounding box recovers it exactly. -/
lemma decodeBBox_encodeBBox (b : FlutterBBox) :
    decodeBBox (encodeBBox b) = some b := by
  obtain ⟨dt, bx, by_, bw, bh, bcx, bcy, ba⟩ := b
  simp [decodeBBox, encodeBBox, Json.getField, Json.asStr, Json.asInt,
    List.find?]

/-- Re-parsing a serialized bounding-box list recovers it exactly. -/
lemma decode_boxes_encode (l : List FlutterBBox) :
    decode_boxes (l.map encodeBBox) = some l := by
  induction l with
  | nil => rfl
  | cons b rest ih => simp [decode_boxes, decodeBBox_encodeBBox, ih]

/-- Re-parsing the serialized external schema recovers `final_decision`,
the anomaly score, and every bounding box exactly. -/
lemma parse_external_encodeResponse (fr : FlutterResponse) :
    parse_external (encodeResponse fr) = some
      { final_decision := fr.final_decision
        anomaly_score := fr.anomaly_detection.anomaly_score
        bounding_boxes := fr.bounding_boxes } := by
  simp [parse_external, encodeResponse, Json.getField, List.find?,
    Json.asStr, Json.asNum, decode_boxes_encode]

/-- C7: formatting a well-formed pipeline result succeeds with the
anomaly score rounded to 4 decimal places and the processing time to 2;
the per-type bounding-box mapping is flattened into one tagged sequence;
and re-parsing the serialized external schema preserves `final_decision`,
the 4-decimal anomaly score, and every bounding box's field values
exactly. -/
theorem formatterRoundTrip (r : DetectionResult) :
    ∃ fr, format_flutter_response (toRaw r) = .success fr ∧
      fr.final_decision = r.final_decision ∧
      fr.anomaly_detection.anomaly_score =
        pyRound 4 r.anomaly_detection.anomaly_score ∧
      fr.processing_time = pyRound 2 r.processing_time ∧
      fr.bounding_boxes =
        (match r.defect_classification with
         | some d => flatten_tagged d.bounding_boxes
         | none => []) ∧
      parse_external (encodeResponse fr) = some
        { final_decision := fr.final_decision
          anomaly_score := fr.anomaly_detection.anomaly_score
          bounding_boxes := fr.bounding_boxes } := by
  refine ⟨expected_response r, ?_, rfl, rfl, rfl, rfl,
    parse_external_encodeResponse _⟩
  unfold format_flutter_response
  rw [format_core_toRaw]

end DefectBackend
